import Mathlib

/-!
# Verification of the termease shell-utility library (src/lib.rs)

A shallow embedding of the filesystem/process layer of `termease`.

Modelling conventions:
* Filesystem paths are normalized component lists (`List String`); the empty
  list is the root, which always exists and is a directory.
* The filesystem is a snapshot: a list of nodes (path, kind, raw metadata),
  a set of directories whose listing is blocked by OS permissions, and the
  process-wide current working directory.
* Rust `panic!` / `.unwrap()` / `.expect(..)` aborts are modelled by the
  `Outcome.panic` constructor, distinct from an error value returned to the
  caller (`Outcome.err`) and from success (`Outcome.ok`).
* Machine integers (`u64`, `u32`) carry platform-reported values that are
  never computed with, so they are modelled as `Nat`.
* OS primitives (`fs::create_dir`, `fs::remove_dir`, `fs::read_dir`,
  `Path::exists`, `Path::is_dir`, metadata lookup) are modelled as total
  functions on the snapshot; library functions are translated from the
  source line by line on top of them.
-/

namespace Termease

/-- Result of calling a termease function: success, an error value returned
to the caller, or an aborted process (Rust `panic!`/`unwrap`/`expect`). -/
inductive Outcome (ε α : Type) where
  | ok (a : α)
  | err (e : ε)
  | panic (msg : String)
deriving DecidableEq

/-- Whether the outcome is a success. -/
def Outcome.isOk {ε α : Type} : Outcome ε α → Bool
  | .ok _ => true
  | _ => false

/-- Whether the outcome is an error value returned to the caller. -/
def Outcome.isErr {ε α : Type} : Outcome ε α → Bool
  | .err _ => true
  | _ => false

/-- Whether the outcome is an aborted process (panic). -/
def Outcome.isPanic {ε α : Type} : Outcome ε α → Bool
  | .panic _ => true
  | _ => false

/-- Error kinds of `std::io::Error` that the modelled OS primitives produce. -/
inductive IoErrorKind where
  | notFound
  | alreadyExists
  | notADirectory
  | directoryNotEmpty
  | permissionDenied
deriving DecidableEq

/-- Kind of a filesystem node. -/
inductive NodeKind where
  | file
  | dir
deriving DecidableEq

/-- Raw platform metadata of one node, as reported by
`std::os::linux::fs::MetadataExt` (`st_blksize`, `st_blocks`, `st_size`,
`st_uid`, `st_gid`). The first three are `u64`, the last two `u32` in Rust;
they are opaque platform values here, modelled as `Nat`. -/
structure Metadata where
  st_blksize : Nat
  st_blocks : Nat
  st_size : Nat
  st_uid : Nat
  st_gid : Nat
deriving DecidableEq

/-- One filesystem node: its absolute path (component list), its kind and
its raw metadata. -/
structure FSNode where
  path : List String
  kind : NodeKind
  meta : Metadata
deriving DecidableEq

/-- A snapshot of the OS state visible to termease: the filesystem nodes,
the directories whose listing is denied by OS permissions, and the
process-wide current working directory. -/
structure FS where
  nodes : List FSNode
  unreadable : List (List String)
  cwd : List String
deriving DecidableEq

/-- Look up the node stored at path `p` (the root `[]` is not a node). -/
def FS.find (fs : FS) (p : List String) : Option FSNode :=
  fs.nodes.find? (fun n => n.path == p)

/-- Models `Path::exists`: the root always exists, otherwise a node must be
stored at the path. -/
def FS.pathExists (fs : FS) (p : List String) : Bool :=
  p.isEmpty || (fs.find p).isSome

/-- Models `Path::is_dir`: the root is a directory, otherwise the stored
node must be a directory. -/
def FS.isDirectory (fs : FS) (p : List String) : Bool :=
  if p.isEmpty then true
  else
    match fs.find p with
    | some n => n.kind == NodeKind.dir
    | none => false

/-- Models `Path::metadata`: the raw metadata of the node at `p`, `none`
when the path does not resolve. -/
def FS.metadata (fs : FS) (p : List String) : Option Metadata :=
  (fs.find p).map (·.meta)

/-- The immediate children of directory `d`: nodes exactly one component
deeper whose path minus its last component is `d`. -/
def FS.children (fs : FS) (d : List String) : List FSNode :=
  fs.nodes.filter (fun n => n.path.length == d.length + 1 && n.path.dropLast == d)

/-- One entry yielded by a directory read: its full path, its file name
(final component), whether it is a directory, and its metadata. -/
structure DirEntry where
  path : List String
  name : String
  isDir : Bool
  meta : Metadata
deriving DecidableEq

/-- Models `fs::read_dir`: permission-denied when the directory is in the
unreadable set, not-found when it is not a directory, otherwise the list of
immediate children in directory-entry order. -/
def FS.read_dir (fs : FS) (d : List String) : Except IoErrorKind (List DirEntry) :=
  if d ∈ fs.unreadable then .error .permissionDenied
  else if !fs.isDirectory d then .error .notFound
  else .ok ((fs.children d).map (fun n =>
    { path := n.path, name := n.path.getLastD "", isDir := n.kind == NodeKind.dir,
      meta := n.meta }))

/-- Metadata the OS assigns to a freshly created directory; its concrete
values are irrelevant to every property proved here. -/
def freshMeta : Metadata :=
  { st_blksize := 4096, st_blocks := 8, st_size := 4096, st_uid := 0, st_gid := 0 }

/-- Models `fs::create_dir`: fails with `AlreadyExists` when the path
exists, `NotFound` when the parent does not exist, `NotADirectory` when the
parent is not a directory; otherwise stores one new directory node. -/
def create_dir (fs : FS) (p : List String) : Except IoErrorKind FS :=
  if fs.pathExists p then .error .alreadyExists
  else if !fs.pathExists p.dropLast then .error .notFound
  else if !fs.isDirectory p.dropLast then .error .notADirectory
  else .ok { fs with nodes := ⟨p, NodeKind.dir, freshMeta⟩ :: fs.nodes }

/-- Models `fs::remove_dir`: fails with `NotFound` when the path does not
exist, `NotADirectory` when it is not a directory, `DirectoryNotEmpty` when
it still has children; otherwise drops the node. -/
def remove_dir (fs : FS) (p : List String) : Except IoErrorKind FS :=
  if !fs.pathExists p then .error .notFound
  else if !fs.isDirectory p then .error .notADirectory
  else if !(fs.children p).isEmpty then .error .directoryNotEmpty
  else .ok { fs with nodes := fs.nodes.filter (fun n => n.path != p) }

/-- Well-formed snapshot: every stored node has a non-root path and its
parent exists (a real filesystem has no orphan entries). -/
def FS.wf (fs : FS) : Bool :=
  fs.nodes.all (fun n => !n.path.isEmpty && fs.pathExists n.path.dropLast)

/-- Embeds `cd` (src/lib.rs:50-61): panics when the path does not exist or
is not a directory, otherwise changes the process-wide current directory
(`env::set_current_dir`) and returns `Ok(())`. -/
def cd (fs : FS) (directory : List String) : Outcome IoErrorKind Unit × FS :=
  if !fs.pathExists directory then (.panic "directory does not exist", fs)
  else if !fs.isDirectory directory then (.panic "path is not a directory", fs)
  else (.ok (), { fs with cwd := directory })

/-- Embeds `mkdir` (src/lib.rs:102-111): panics when the path already
exists, otherwise propagates `fs::create_dir`'s result with `?`. -/
def mkdir (fs : FS) (directory : List String) : Outcome IoErrorKind Unit × FS :=
  if fs.pathExists directory then (.panic "directory already exists", fs)
  else
    match create_dir fs directory with
    | .ok fs2 => (.ok (), fs2)
    | .error e => (.err e, fs)

/-- Embeds `ls` (src/lib.rs:137-162): returns the string errors of the
source for a missing path or a non-directory, `.unwrap()`s the directory
read (a panic on failure), and collects every entry's full path. -/
def ls (fs : FS) (directory : List String) : Outcome String (List (List String)) :=
  if !fs.pathExists directory then .err "directory does not exist"
  else if !fs.isDirectory directory then .err "path is not a directory"
  else
    match fs.read_dir directory with
    | .error _ => .panic "unwrap on read_dir failed"
    | .ok files => .ok (files.map (·.path))

/-- Embeds `rmdir` (src/lib.rs:254-263): when the path exists it
`.unwrap()`s `fs::remove_dir` (a panic on any removal failure, the
filesystem left as it was), otherwise returns the source's string error. -/
def rmdir (fs : FS) (directory : List String) : Outcome String Unit × FS :=
  if fs.pathExists directory then
    match remove_dir fs directory with
    | .ok fs2 => (.ok (), fs2)
    | .error _ => (.panic "unwrap on remove_dir failed", fs)
  else (.err "directory does not exist", fs)

/-- The table filled by `stat` (src/lib.rs:274-280): `size` holds
`st_blksize`, `number` holds `st_blocks`, `count` holds `st_size`, plus the
owning user and group ids. -/
structure StatTable where
  size : Nat
  number : Nat
  count : Nat
  uid : Nat
  gid : Nat
deriving DecidableEq

/-- Embeds `stat` (src/lib.rs:314-349): `.expect`s the metadata lookup (a
panic when it fails), then fills the `StatTable` with the five raw
platform-reported values. The source prints the table and returns `()`;
the table itself is the observable modelled here, and the source's
default-initialise-then-assign of every field collapses to building the
record directly. -/
def stat (fs : FS) (folder : List String) : Outcome Empty StatTable :=
  match fs.metadata folder with
  | none => .panic "Could not get metadata"
  | some meta =>
      .ok { size := meta.st_blksize, number := meta.st_blocks,
            count := meta.st_size, uid := meta.st_uid, gid := meta.st_gid }

/-- The spawn request issued by `execute`: the program string handed to
`Command::new` and the argument list handed to `.args`. -/
structure SpawnRecord where
  program : String
  args : List String
deriving DecidableEq

/-- Embeds `execute` (src/lib.rs:183-217): `.expect`s the final path
component (`Path::file_name`, a panic when the path has none), panics when
the path does not exist, then spawns by the bare file name — not by the
full supplied path — passing the arguments, copied one by one with
`String::from`, in their original order. The spawn request is the
observable; `.spawn()`'s own failure is a further `.expect` panic outside
this model. -/
def execute (fs : FS) (path : List String) (args : Option (List String)) :
    Outcome Empty SpawnRecord :=
  match path.getLast? with
  | none => .panic "No final component of file name"
  | some name =>
      if !fs.pathExists path then .panic "Location doesn't exist"
      else
        match args with
        | none => .ok { program := name, args := [] }
        | some as => .ok { program := name, args := as.map (fun s => s) }

/-- The fixed search directories of `which` (src/lib.rs:413-417):
`/usr/bin`, plus `/bin` when `index_bin` is true. -/
def searchPaths (index_bin : Bool) : List (List String) :=
  [["usr", "bin"]] ++ (if index_bin then [["bin"]] else [])

/-- The inner entry loop of `which` (src/lib.rs:421-441): directories are
skipped; on a name match the source builds `Ok(String::from(name))` and
binds it to `_`, discarding it (`let _ = Ok::<String, &str>(..)`), so the
loop has no observable result at all. -/
def whichItems (name : String) : List DirEntry → Unit
  | [] => ()
  | item :: rest =>
      if item.isDir then whichItems name rest
      else
        if name == item.name then
          let _discarded : Except String String := Except.ok item.name
          whichItems name rest
        else whichItems name rest

/-- The outer directory loop of `which`: each search directory's listing is
`.unwrap()`ed (a panic when the read fails), the entries are scanned, and
after every directory the source falls through to `Err("not found")`. -/
def whichScan (fs : FS) (name : String) : List (List String) → Outcome String String
  | [] => .err "not found"
  | p :: rest =>
      match fs.read_dir p with
      | .error _ => .panic "unwrap on read_dir failed"
      | .ok items =>
          let _ := whichItems name items
          whichScan fs name rest

/-- Embeds `which` (src/lib.rs:412-444). -/
def which (fs : FS) (name : String) (index_bin : Bool) : Outcome String String :=
  whichScan fs name (searchPaths index_bin)

/-- Embeds `whoami` (src/lib.rs:455-467) on Linux: the identity command's
captured standard output — given as the already-decoded character sequence,
since the claim conditions on it being valid UTF-8 — is returned as a
string unchanged: no trimming, no newline stripping
(`String::from_utf8(output.stdout).unwrap()` and nothing else). -/
def whoami (stdout : List Char) : String :=
  String.mk stdout

/-- A concrete filesystem snapshot used to instantiate the theorems:
`/usr/bin` holds the executable `vim`, `/tmp/full` is a non-empty
directory, and everything is readable. -/
def sampleFS : FS :=
  { nodes := [
      ⟨["usr"], NodeKind.dir, freshMeta⟩,
      ⟨["usr", "bin"], NodeKind.dir, freshMeta⟩,
      ⟨["usr", "bin", "vim"], NodeKind.file, ⟨4096, 8, 3145728, 1000, 1000⟩⟩,
      ⟨["tmp"], NodeKind.dir, freshMeta⟩,
      ⟨["tmp", "full"], NodeKind.dir, freshMeta⟩,
      ⟨["tmp", "full", "note"], NodeKind.file, ⟨4096, 2, 512, 1000, 100⟩⟩],
    unreadable := [], cwd := [] }

/-- The same snapshot with `/usr/bin` unreadable (OS permission denial on
the directory listing). -/
def lockedFS : FS :=
  { sampleFS with unreadable := [["usr", "bin"]] }

/-! ## Helper lemmas -/

/-- A path whose existence check fails is not the root. -/
theorem isEmpty_false_of_not_exists {fs : FS} {p : List String}
    (h : fs.pathExists p = false) : p.isEmpty = false := by
  unfold FS.pathExists at h
  exact (Bool.or_eq_false_iff.mp h).1

/-- A path whose existence check fails has no stored node. -/
theorem find_eq_none_of_not_exists {fs : FS} {p : List String}
    (h : fs.pathExists p = false) : fs.find p = none := by
  unfold FS.pathExists at h
  have h2 := (Bool.or_eq_false_iff.mp h).2
  cases hf : fs.find p with
  | none => rfl
  | some n => rw [hf] at h2; simp at h2

/-- A path whose existence check fails has no metadata. -/
theorem metadata_eq_none_of_not_exists {fs : FS} {p : List String}
    (h : fs.pathExists p = false) : fs.metadata p = none := by
  unfold FS.metadata
  rw [find_eq_none_of_not_exists h]
  rfl

/-- A directory-check success implies an existence-check success. -/
theorem pathExists_of_isDirectory {fs : FS} {p : List String}
    (h : fs.isDirectory p = true) : fs.pathExists p = true := by
  unfold FS.isDirectory at h
  unfold FS.pathExists
  cases he : p.isEmpty with
  | true => simp [he]
  | false =>
      rw [he] at h
      simp only [Bool.false_eq_true, if_false] at h
      cases hf : fs.find p with
      | none => rw [hf] at h; simp at h
      | some n => simp [hf]

/-- Prepending a node at path `p` makes `p` exist. -/
theorem pathExists_prepend (fs : FS) (p : List String) (k : NodeKind) (m : Metadata) :
    FS.pathExists { fs with nodes := ⟨p, k, m⟩ :: fs.nodes } p = true := by
  simp [FS.pathExists, FS.find, List.find?]

/-! ## Claim theorems -/

/-- C7: for every path whose metadata is readable, `stat` builds its table
entirely from the five platform-reported raw metadata values — block size
(`st_blksize`), block count (`st_blocks`), total byte size (`st_size`),
owning user id (`st_uid`) and owning group id (`st_gid`) — copying each
into the corresponding `StatTable` field without recomputing any of them. -/
theorem stat_reports_raw_metadata (fs : FS) (p : List String) (m : Metadata)
    (h : fs.metadata p = some m) :
    stat fs p = Outcome.ok
      { size := m.st_blksize, number := m.st_blocks, count := m.st_size,
        uid := m.st_uid, gid := m.st_gid } := by
  simp [stat, h]

/-- Witness for C7 at `/usr/bin/vim` in the sample snapshot. -/
theorem stat_reports_raw_metadata_witness :
    stat sampleFS ["usr", "bin", "vim"] = Outcome.ok ⟨4096, 8, 3145728, 1000, 1000⟩ :=
  stat_reports_raw_metadata sampleFS ["usr", "bin", "vim"]
    ⟨4096, 8, 3145728, 1000, 1000⟩ (by decide)

/-- C8: for every existing path with a final component and every optional
argument list, `execute` spawns the process by the bare final path
component (name-based OS lookup, not direct invocation of the full
supplied path), and any supplied arguments are passed verbatim and in
their original order. -/
theorem execute_spawns_by_name (fs : FS) (path : List String) (name : String)
    (args : List String) (hlast : path.getLast? = some name)
    (hex : fs.pathExists path = true) :
    execute fs path (some args) = Outcome.ok { program := name, args := args } ∧
    execute fs path none = Outcome.ok { program := name, args := [] } := by
  simp [execute, hlast, hex]

/-- Witness for C8 at `/usr/bin/vim` with two arguments. -/
theorem execute_spawns_by_name_witness :
    execute sampleFS ["usr", "bin", "vim"] (some ["-R", "notes.txt"]) =
      Outcome.ok { program := "vim", args := ["-R", "notes.txt"] } ∧
    execute sampleFS ["usr", "bin", "vim"] none =
      Outcome.ok { program := "vim", args := [] } :=
  execute_spawns_by_name sampleFS ["usr", "bin", "vim"] "vim" ["-R", "notes.txt"]
    (by decide) (by decide)

/-- C10: when the identity command runs successfully and its standard
output is valid UTF-8, `whoami` returns that output decoded byte-for-byte
with no trimming; in particular any trailing newline is preserved in the
returned string. -/
theorem whoami_preserves_stdout (out : List Char) (nl : Char)
    (h : out.getLast? = some nl) :
    (whoami out).data = out ∧ (whoami out).data.getLast? = some nl :=
  ⟨rfl, h⟩

/-- Witness for C10 on the output `josh` followed by a newline. -/
theorem whoami_preserves_stdout_witness :
    (whoami "josh\n".toList).data = "josh\n".toList ∧
    (whoami "josh\n".toList).data.getLast? = some '\n' :=
  whoami_preserves_stdout "josh\n".toList '\n' (by decide)

/-- C2 fails as stated: on a missing path `stat` aborts with a panic
inside the call; it has no fallible return at all, so no not-found error
reaches the caller. -/
theorem stat_missing_path_counterexample :
    (stat sampleFS ["missing"]).isErr = false ∧
    (stat sampleFS ["missing"]).isPanic = true := by decide

/-- C2 amended: on a missing path `ls` and `rmdir` return the source's
not-found error to the caller (and `rmdir` leaves the filesystem
unchanged), while `stat` panics with "Could not get metadata" instead of
returning an error. -/
theorem missing_path_failures (fs : FS) (p : List String)
    (h : fs.pathExists p = false) :
    ls fs p = Outcome.err "directory does not exist" ∧
    (rmdir fs p).1 = Outcome.err "directory does not exist" ∧
    (rmdir fs p).2 = fs ∧
    stat fs p = Outcome.panic "Could not get metadata" := by
  refine ⟨?_, ?_, ?_, ?_⟩
  · simp [ls, h]
  · simp [rmdir, h]
  · simp [rmdir, h]
  · simp [stat, metadata_eq_none_of_not_exists h]

/-- Witness for C2 (amended) at the missing path `/missing`. -/
theorem missing_path_failures_witness :
    ls sampleFS ["missing"] = Outcome.err "directory does not exist" ∧
    (rmdir sampleFS ["missing"]).1 = Outcome.err "directory does not exist" ∧
    (rmdir sampleFS ["missing"]).2 = sampleFS ∧
    stat sampleFS ["missing"] = Outcome.panic "Could not get metadata" :=
  missing_path_failures sampleFS ["missing"] (by decide)

/-- C3 fails as stated: `cd` on a missing path aborts with a panic rather
than returning the failure to the caller as a fallible result. -/
theorem cd_missing_path_counterexample :
    ((cd sampleFS ["missing"]).1).isErr = false ∧
    ((cd sampleFS ["missing"]).1).isPanic = true := by decide

/-- C3 amended: precondition violations abort with a panic — `cd` on a
missing path or on a non-directory, `mkdir` on an existing path, `execute`
on a missing path — and only failures of the OS call made after the
checks, such as `create_dir` on a missing parent, are returned to the
caller as fallible results. -/
theorem precondition_failures_panic (fs : FS) (p p2 q r w : List String)
    (args : Option (List String))
    (hp : fs.pathExists p = false)
    (hp2a : fs.pathExists p2 = true) (hp2b : fs.isDirectory p2 = false)
    (hq : fs.pathExists q = true)
    (hr : fs.pathExists r = false)
    (hw1 : fs.pathExists w = false) (hw2 : fs.pathExists w.dropLast = false) :
    (cd fs p).1 = Outcome.panic "directory does not exist" ∧
    (cd fs p2).1 = Outcome.panic "path is not a directory" ∧
    (mkdir fs q).1 = Outcome.panic "directory already exists" ∧
    (execute fs r args).isPanic = true ∧
    (mkdir fs w).1 = Outcome.err IoErrorKind.notFound := by
  refine ⟨?_, ?_, ?_, ?_, ?_⟩
  · simp [cd, hp]
  · simp [cd, hp2a, hp2b]
  · simp [mkdir, hq]
  · cases hgl : r.getLast? <;> cases args <;>
      simp [execute, hgl, hr, Outcome.isPanic]
  · simp [mkdir, create_dir, hw1, hw2]

/-- Witness for C3 (amended) in the sample snapshot. -/
theorem precondition_failures_panic_witness :
    (cd sampleFS ["missing"]).1 = Outcome.panic "directory does not exist" ∧
    (cd sampleFS ["usr", "bin", "vim"]).1 = Outcome.panic "path is not a directory" ∧
    (mkdir sampleFS ["tmp"]).1 = Outcome.panic "directory already exists" ∧
    (execute sampleFS ["missing"] none).isPanic = true ∧
    (mkdir sampleFS ["no", "such", "dir"]).1 = Outcome.err IoErrorKind.notFound :=
  precondition_failures_panic sampleFS ["missing"] ["usr", "bin", "vim"] ["tmp"]
    ["missing"] ["no", "such", "dir"] none (by decide) (by decide) (by decide)
    (by decide) (by decide) (by decide) (by decide)

/-- C4 fails as stated: `rmdir` on the existing non-empty directory
`/tmp/full` aborts with a panic instead of returning a NotEmpty error to
the caller (the filesystem is left unchanged). -/
theorem rmdir_nonempty_counterexample :
    ((rmdir sampleFS ["tmp", "full"]).1).isErr = false ∧
    ((rmdir sampleFS ["tmp", "full"]).1).isPanic = true ∧
    (rmdir sampleFS ["tmp", "full"]).2 = sampleFS := by decide

/-- C4 amended: `rmdir` on an existing non-empty directory panics — the
underlying removal error is unwrapped, not returned as a distinct NotEmpty
error — and the directory is left unchanged. -/
theorem rmdir_nonempty_panics (fs : FS) (p : List String)
    (h1 : fs.pathExists p = true) (h2 : fs.isDirectory p = true)
    (h3 : (fs.children p).isEmpty = false) :
    (rmdir fs p).1 = Outcome.panic "unwrap on remove_dir failed" ∧
    (rmdir fs p).2 = fs := by
  constructor <;> simp [rmdir, remove_dir, h1, h2, h3]

/-- Witness for C4 (amended) at the non-empty directory `/tmp/full`. -/
theorem rmdir_nonempty_panics_witness :
    (rmdir sampleFS ["tmp", "full"]).1 = Outcome.panic "unwrap on remove_dir failed" ∧
    (rmdir sampleFS ["tmp", "full"]).2 = sampleFS :=
  rmdir_nonempty_panics sampleFS ["tmp", "full"] (by decide) (by decide) (by decide)

/-- C5 fails as stated: the first `mkdir /tmp/new` succeeds, and the
second call on the unchanged filesystem aborts with a panic instead of
returning an AlreadyExists error to the caller. -/
theorem mkdir_twice_counterexample :
    ((mkdir sampleFS ["tmp", "new"]).1).isOk = true ∧
    ((mkdir (mkdir sampleFS ["tmp", "new"]).2 ["tmp", "new"]).1).isErr = false ∧
    ((mkdir (mkdir sampleFS ["tmp", "new"]).2 ["tmp", "new"]).1).isPanic = true := by
  decide

/-- C5 amended: for a creatable path (not yet existing, parent a
directory) the first `mkdir p` succeeds, and calling `mkdir p` again with
the filesystem otherwise unchanged panics with "directory already exists"
rather than returning an AlreadyExists error (and mutates nothing). -/
theorem mkdir_twice_panics (fs : FS) (p : List String)
    (h1 : fs.pathExists p = false)
    (h2 : fs.isDirectory p.dropLast = true) :
    ((mkdir fs p).1).isOk = true ∧
    mkdir (mkdir fs p).2 p =
      (Outcome.panic "directory already exists", (mkdir fs p).2) := by
  have hpar : fs.pathExists p.dropLast = true := pathExists_of_isDirectory h2
  have hmk : mkdir fs p =
      (Outcome.ok (), { fs with nodes := ⟨p, NodeKind.dir, freshMeta⟩ :: fs.nodes }) := by
    simp [mkdir, create_dir, h1, hpar, h2]
  rw [hmk]
  exact ⟨rfl, by simp [mkdir, pathExists_prepend]⟩

/-- Witness for C5 (amended) at `/tmp/new`. -/
theorem mkdir_twice_panics_witness :
    ((mkdir sampleFS ["tmp", "new"]).1).isOk = true ∧
    mkdir (mkdir sampleFS ["tmp", "new"]).2 ["tmp", "new"] =
      (Outcome.panic "directory already exists", (mkdir sampleFS ["tmp", "new"]).2) :=
  mkdir_twice_panics sampleFS ["tmp", "new"] (by decide) (by decide)

/-- C6 fails as stated: with `/usr/bin` unreadable, `which` aborts with a
panic instead of returning a PermissionDenied error to the caller. -/
theorem which_unreadable_counterexample :
    (which lockedFS "vim" true).isErr = false ∧
    (which lockedFS "vim" true).isPanic = true := by decide

/-- C6 amended: when the search directory `/usr/bin` cannot be read,
`which` panics — the directory read is unwrapped — rather than returning a
distinct PermissionDenied error to the caller. -/
theorem which_unreadable_panics (fs : FS) (name : String) (b : Bool)
    (h : ["usr", "bin"] ∈ fs.unreadable) :
    which fs name b = Outcome.panic "unwrap on read_dir failed" := by
  cases b <;> simp [which, searchPaths, whichScan, FS.read_dir, h]

/-- Witness for C6 (amended) on the locked snapshot. -/
theorem which_unreadable_panics_witness :
    which lockedFS "whoami" false = Outcome.panic "unwrap on read_dir failed" :=
  which_unreadable_panics lockedFS "whoami" false (by decide)

/-- C1: the claim is right and the code is wrong. `/usr/bin` holds a
non-directory entry named exactly `vim`, yet `which "vim" false` still
returns the not-found error: the source builds the successful result and
immediately discards it (`let _ = Ok(..)`, src/lib.rs:439), so `which`
never returns success even when a scanned directory contains a match. -/
theorem which_drops_its_match :
    ((sampleFS.read_dir ["usr", "bin"]).toOption.getD []).any
      (fun e => !e.isDir && e.name == "vim") = true ∧
    which sampleFS "vim" false = Outcome.err "not found" := by decide

/-- In a well-formed snapshot a nonexistent path has no children. -/
theorem children_eq_nil_of_not_exists {fs : FS} {p : List String}
    (hwf : fs.wf = true) (h : fs.pathExists p = false) :
    fs.children p = [] := by
  unfold FS.children
  rw [List.filter_eq_nil_iff]
  intro n hn hpred
  have hdl : n.path.dropLast = p := by
    have hb := (Bool.and_eq_true _ _).mp hpred |>.2
    exact eq_of_beq hb
  have hw := List.all_eq_true.mp hwf n hn
  have hpe : fs.pathExists n.path.dropLast = true := ((Bool.and_eq_true _ _).mp hw).2
  rw [hdl, h] at hpe
  exact Bool.false_ne_true hpe

/-- C9: for every path that does not exist and whose parent is a
directory, in a well-formed snapshot, `mkdir p` succeeds, `rmdir p` then
succeeds, and the filesystem is left in exactly the state it had before
the first call (round-trip identity). -/
theorem mkdir_rmdir_roundtrip (fs : FS) (p : List String)
    (hwf : fs.wf = true)
    (h1 : fs.pathExists p = false)
    (h2 : fs.isDirectory p.dropLast = true) :
    ((mkdir fs p).1).isOk = true ∧
    ((rmdir (mkdir fs p).2 p).1).isOk = true ∧
    (rmdir (mkdir fs p).2 p).2 = fs := by
  have hpar : fs.pathExists p.dropLast = true := pathExists_of_isDirectory h2
  have hemp : p.isEmpty = false := isEmpty_false_of_not_exists h1
  have hfind : fs.find p = none := find_eq_none_of_not_exists h1
  have hmk : mkdir fs p =
      (Outcome.ok (), { fs with nodes := ⟨p, NodeKind.dir, freshMeta⟩ :: fs.nodes }) := by
    simp [mkdir, create_dir, h1, hpar, h2]
  rw [hmk]
  refine ⟨rfl, ?_⟩
  have hex1 : FS.pathExists { fs with nodes := ⟨p, NodeKind.dir, freshMeta⟩ :: fs.nodes } p =
      true := pathExists_prepend fs p NodeKind.dir freshMeta
  have hdir1 : FS.isDirectory { fs with nodes := ⟨p, NodeKind.dir, freshMeta⟩ :: fs.nodes } p =
      true := by
    simp [FS.isDirectory, FS.find, List.find?, hemp]
  have hch1 : FS.children { fs with nodes := ⟨p, NodeKind.dir, freshMeta⟩ :: fs.nodes } p =
      [] := by
    unfold FS.children
    rw [List.filter_cons]
    have hhead : (p.length == p.length + 1 && p.dropLast == p) = false := by
      have : (p.length == p.length + 1) = false :=
        beq_eq_false_iff_ne.mpr (Nat.ne_of_lt (Nat.lt_succ_self _))
      simp [this]
    rw [hhead]
    simp only [Bool.false_eq_true, if_false]
    exact children_eq_nil_of_not_exists hwf h1
  have hkeep : fs.nodes.filter (fun n => n.path != p) = fs.nodes := by
    rw [List.filter_eq_self]
    intro n hn
    have := List.find?_eq_none.mp hfind n hn
    simpa using this
  have hrm : remove_dir { fs with nodes := ⟨p, NodeKind.dir, freshMeta⟩ :: fs.nodes } p =
      Except.ok fs := by
    unfold remove_dir
    rw [hex1, hdir1, hch1]
    simp only [Bool.not_true, Bool.false_eq_true, if_false, List.isEmpty_nil]
    rw [List.filter_cons]
    have hself : ((⟨p, NodeKind.dir, freshMeta⟩ : FSNode).path != p) = false := by
      simp
    rw [hself]
    simp only [Bool.false_eq_true, if_false, hkeep]
  simp [rmdir, hex1, hrm, Outcome.isOk]

/-- Witness for C9 at `/tmp/new` in the sample snapshot. -/
theorem mkdir_rmdir_roundtrip_witness :
    ((mkdir sampleFS ["tmp", "new"]).1).isOk = true ∧
    ((rmdir (mkdir sampleFS ["tmp", "new"]).2 ["tmp", "new"]).1).isOk = true ∧
    (rmdir (mkdir sampleFS ["tmp", "new"]).2 ["tmp", "new"]).2 = sampleFS :=
  mkdir_rmdir_roundtrip sampleFS ["tmp", "new"] (by decide) (by decide) (by decide)

end Termease
